import Mathlib

/-
Verification development for the `sil` repository.

Part 1 embeds the browser administration UI components and the PyInstaller
packaging manifests that are present in the source tree.

Part 2 models the biometric attendance aggregation server.  Its Python
sources (`biometric_server_gui.py` / `biometric_server_erp.py`) are not in
the tree — only packaging manifests, an installer script and a systemd unit
reference them — so the server components are modelled from the
specification text and all server theorems are about that model.
-/

namespace Sil

/-! ## JavaScript string and list helpers -/

/-- Embeds JavaScript `String.prototype.trim`: strip leading and trailing
whitespace from a string. -/
def jsTrim (s : String) : String :=
  ⟨((s.data.dropWhile Char.isWhitespace).reverse.dropWhile Char.isWhitespace).reverse⟩

/-- Embeds the JavaScript idiom `const i = xs.findIndex(p); xs.map((x, j) => j === i ? u(x) : x)`:
update the first element satisfying `p`, leaving everything else unchanged. -/
def updFirst {α : Type} (p : α → Prop) [DecidablePred p] (u : α → α) : List α → List α
  | [] => []
  | a :: l => if p a then u a :: l else a :: updFirst p u l

theorem updFirst_length {α : Type} (p : α → Prop) [DecidablePred p] (u : α → α)
    (l : List α) : (updFirst p u l).length = l.length := by
  induction l with
  | nil => rfl
  | cons a l ih =>
    by_cases h : p a <;> simp [updFirst, h, ih]

theorem map_updFirst {α β : Type} (p : α → Prop) [DecidablePred p] (u : α → α)
    (f : α → β) (hf : ∀ a, p a → f (u a) = f a) (l : List α) :
    (updFirst p u l).map f = l.map f := by
  induction l with
  | nil => rfl
  | cons a l ih =>
    by_cases h : p a
    · simp [updFirst, h, hf a h]
    · simp [updFirst, h, ih]

theorem updFirst_eq_map_of_pairwise {α : Type} (p : α → Prop) [DecidablePred p]
    (u : α → α) (l : List α) (h : l.Pairwise (fun a b => p a → p b → False)) :
    updFirst p u l = l.map (fun a => if p a then u a else a) := by
  induction l with
  | nil => rfl
  | cons a l ih =>
    rcases List.pairwise_cons.mp h with ⟨ha, hl⟩
    by_cases hp : p a
    · have : ∀ b ∈ l, ¬ p b := fun b hb hpb => ha b hb hp hpb
      have hmap : l.map (fun a => if p a then u a else a) = l := by
        conv_rhs => rw [← List.map_id l]
        exact List.map_congr_left (fun b hb => by simp [this b hb])
      simp [updFirst, hp, hmap]
    · simp [updFirst, hp, ih hl]

theorem updFirst_append_of_none {α : Type} (p : α → Prop) [DecidablePred p]
    (u : α → α) (l l2 : List α) (h : ∀ a ∈ l, ¬ p a) :
    updFirst p u (l ++ l2) = l ++ updFirst p u l2 := by
  induction l with
  | nil => rfl
  | cons a l ih =>
    have ha : ¬ p a := h a (List.mem_cons_self a l)
    simp [updFirst, ha, ih (fun b hb => h b (List.mem_cons_of_mem a hb))]

theorem updFirst_idem {α : Type} (p : α → Prop) [DecidablePred p] (u : α → α)
    (hstable : ∀ a, p a → p (u a)) (hidem : ∀ a, p a → u (u a) = u a)
    (l : List α) : updFirst p u (updFirst p u l) = updFirst p u l := by
  induction l with
  | nil => rfl
  | cons a l ih =>
    by_cases h : p a
    · simp [updFirst, h, hstable a h, hidem a h]
    · simp [updFirst, h, ih]

/-! ## Packaging manifests (PyInstaller `Analysis.hiddenimports`)

The two PyInstaller spec manifests of the biometric attendance server,
embedded verbatim from `src/unnamed/part_000` (the three-script GUI build)
and `src/unnamed/part_010` (the single-script GUI build). -/

namespace Manifests

/-- The `hiddenimports` list of the `Analysis` block in `src/unnamed/part_000`. -/
def part000_hiddenimports : List String :=
  ["websockets", "websockets.legacy", "websockets.legacy.server",
   "websockets.legacy.protocol", "asyncio", "sqlite3", "requests", "csv",
   "logging.handlers", "tkinter", "tkinter.ttk", "tkinter.scrolledtext",
   "tkinter.messagebox", "tkinter.filedialog", "queue", "json", "datetime",
   "threading", "weakref", "platform", "socket", "signal"]

/-- The `hiddenimports` list of the `Analysis` block in `src/unnamed/part_010`. -/
def part010_hiddenimports : List String :=
  ["websockets", "asyncio", "sqlite3", "requests", "csv", "logging.handlers",
   "tkinter", "tkinter.filedialog", "queue", "json"]

/-- The runtime modules the spec (§1) names as required: device websocket
links, local SQL storage, background queues, threading, and resilient
networking primitives. -/
def specRequiredModules : List String :=
  ["websockets", "sqlite3", "queue", "threading", "requests"]

end Manifests

/-! ## DeviceDetails UI components (src/unnamed/part_000 and part_007) -/

/-- Row shape of the DeviceDetails tables:
`\x7b id, deviceId, deviceMachId \x7d`. -/
structure DRow where
  id : Nat
  deviceId : String
  deviceMachId : String
deriving DecidableEq, Repr

namespace DeviceDetailsManager

/-- Embeds `handleSave` of the `DeviceDetailsManager` component
(`src/unnamed/part_000`).  The JS trims both form fields, returns early when
either is empty, otherwise looks up `findIndex((r) => r.deviceId === id)`:
on a hit it maps over the rows replacing only that first matching index
(`updFirst`), otherwise it appends a new row with `id: prev.length + 1`. -/
def handleSave (rows : List DRow) (formDeviceId formDeviceMachId : String) : List DRow :=
  let id := jsTrim formDeviceId
  let mach := jsTrim formDeviceMachId
  if id = "" ∨ mach = "" then rows
  else if ∃ r ∈ rows, r.deviceId = id then
    updFirst (fun r => r.deviceId = id) (fun r => { r with deviceMachId := mach }) rows
  else
    rows ++ [{ id := rows.length + 1, deviceId := id, deviceMachId := mach }]

/-- Embeds `handleDelete` of the `DeviceDetailsManager` component
(`src/unnamed/part_000`): trim the form `deviceId`, return early when empty,
otherwise keep exactly the rows whose `deviceId` differs. -/
def handleDelete (rows : List DRow) (formDeviceId : String) : List DRow :=
  let id := jsTrim formDeviceId
  if id = "" then rows
  else rows.filter (fun r => decide (r.deviceId ≠ id))

end DeviceDetailsManager

namespace DeviceDetails

/-- Embeds `handleSave` of the `DeviceDetails` component
(`src/unnamed/part_007`); the function body is identical to the one in
`src/unnamed/part_000`. -/
def handleSave (rows : List DRow) (formDeviceId formDeviceMachId : String) : List DRow :=
  let id := jsTrim formDeviceId
  let mach := jsTrim formDeviceMachId
  if id = "" ∨ mach = "" then rows
  else if ∃ r ∈ rows, r.deviceId = id then
    updFirst (fun r => r.deviceId = id) (fun r => { r with deviceMachId := mach }) rows
  else
    rows ++ [{ id := rows.length + 1, deviceId := id, deviceMachId := mach }]

/-- Embeds `handleDelete` of the `DeviceDetails` component
(`src/unnamed/part_007`); identical to the one in `src/unnamed/part_000`. -/
def handleDelete (rows : List DRow) (formDeviceId : String) : List DRow :=
  let id := jsTrim formDeviceId
  if id = "" then rows
  else rows.filter (fun r => decide (r.deviceId ≠ id))

end DeviceDetails

/-! ## Consumer UI components
(`src/WaterBilling/WaterBillingFE/src/components/consumer/ConsumerType.jsx`
and `src/unnamed/part_001`) -/

/-- Row shape of the ConsumerType table. -/
structure CTRow where
  id : Nat
  code : String
  name : String
deriving DecidableEq, Repr

namespace ConsumerType

/-- Embeds `onSave` of the `ConsumerType` component
(`src/WaterBilling/WaterBillingFE/src/components/consumer/ConsumerType.jsx`):
trim code and name, return early when either is empty; on
`findIndex(r => r.code === c) >= 0` rewrite only `name` of that first
matching row, otherwise append a row with `id: prev.length + 1`. -/
def onSave (rows : List CTRow) (code nameField : String) : List CTRow :=
  let c := jsTrim code
  let n := jsTrim nameField
  if c = "" ∨ n = "" then rows
  else if ∃ r ∈ rows, r.code = c then
    updFirst (fun r => r.code = c) (fun r => { r with name := n }) rows
  else
    rows ++ [{ id := rows.length + 1, code := c, name := n }]

end ConsumerType

/-- Row shape of the ConsumerDetailsManager table. -/
structure ConsRow where
  id : Nat
  code : String
  name : String
  address1 : String
  address2 : String
  phone : String
deriving DecidableEq, Repr

namespace ConsumerDetailsManager

/-- Embeds `onSave` of the `ConsumerDetailsManager` component
(`src/unnamed/part_001`).  The JS uses the raw (untrimmed) form fields: an
empty `code` or `name` returns early; when `findIndex(r => r.code === form.code)`
hits, only `name`, `address1` and `phone` of that first matching row are
rewritten; otherwise a row carrying `code`, `name`, `address1`, `address2`
and `phone` is appended with `id: prev.length + 1`. -/
def onSave (rows : List ConsRow) (code nm address1 address2 phone : String) : List ConsRow :=
  if code = "" ∨ nm = "" then rows
  else if ∃ r ∈ rows, r.code = code then
    updFirst (fun r => r.code = code)
      (fun r => { r with name := nm, address1 := address1, phone := phone }) rows
  else
    rows ++ [{ id := rows.length + 1, code := code, name := nm,
               address1 := address1, address2 := address2, phone := phone }]

end ConsumerDetailsManager

/-! ## Biometric attendance aggregation server

The server's Python sources are not in the tree (only the packaging
manifests, installer and service unit refer to them), so every definition
below is modelled from the specification text (spec.md §3–§4.5, §7). -/

/-- Modelled from the spec (§3): the sync lifecycle of a stored
AttendanceEvent row (`Pending | Synced | Failed`); the server code that owns
this enum (`biometric_server_*.py`) is missing from the tree. -/
inductive SyncState
  | Pending
  | Synced
  | Failed
deriving DecidableEq, Repr

/-- Modelled from the spec (§3): device connection lifecycle
(`Offline | Connecting | Online | Faulted`); the DeviceLink source is
missing from the tree. -/
inductive ConnState
  | Offline
  | Connecting
  | Online
  | Faulted
deriving DecidableEq, Repr

/-- Modelled from the spec (§4.1): the reason recorded when a link closes
(`Normal`, `Timeout`, `ProtocolError`, `IOError`); the ConnectionManager
source is missing from the tree. -/
inductive CloseReason
  | Normal
  | Timeout
  | ProtocolError
  | IOError
deriving DecidableEq, Repr

/-- Modelled from the spec (§4.1, §7): handshake rejection reasons; the
ConnectionManager source is missing from the tree.  `AlreadyConnecting` is
listed by the spec as transient only (superseded, not an error) and is
never returned. -/
inductive RejectReason
  | AuthFailed
  | NotAllowed
  | AlreadyConnecting
deriving DecidableEq, Repr

/-- Modelled from the spec (§3): an AttendanceEvent row of the EventStore;
the EventStore source is missing from the tree.  `eventId` is the
deterministic identifier derived from the device identity and the
device-local sequence number. -/
structure AttendanceEvent where
  eventId : String × Nat
  deviceId : String
  subjectId : String
  capturedAt : Nat
  receivedAt : Nat
  syncState : SyncState
  syncAttempts : Nat
deriving DecidableEq, Repr

/-- Modelled from the spec (§4.3): `eventId` is computed deterministically
from `(deviceId, deviceSequence)`; the EventProcessor source is missing
from the tree.  The pair itself is the canonical deterministic image. -/
def mkEventId (deviceId : String) (deviceSequence : Nat) : String × Nat :=
  (deviceId, deviceSequence)

/-- Modelled from the spec (§4.2, §6): the AttendanceEvent-shaped record a
DeviceLink parses out of one inbound data frame; the DeviceLink source is
missing from the tree. -/
structure RawEvent where
  deviceId : String
  deviceSequence : Nat
  subjectId : String
  capturedAt : Nat
deriving DecidableEq, Repr

/-- Modelled from the spec (§4.3, §4.4): the state EventProcessor acts on —
the durable EventStore rows plus the queue of event ids handed to
ExportSync; the EventProcessor source is missing from the tree. -/
structure ProcState where
  store : List AttendanceEvent
  exportQueue : List (String × Nat)
deriving DecidableEq, Repr

/-- Modelled from the spec (§4.3): `ingest(rawEvent)` — compute `eventId`
deterministically from `(deviceId, deviceSequence)`, look it up in the
EventStore; if present the row is a duplicate and is accepted idempotently
(no new row, no re-export); if absent insert it with `syncState = Pending`
and `syncAttempts = 0` and enqueue the id for ExportSync.  The EventProcessor
source is missing from the tree; both branches are a success, so the model
returns the updated state. -/
def ingest (st : ProcState) (raw : RawEvent) (receivedAt : Nat) : ProcState :=
  let eid := mkEventId raw.deviceId raw.deviceSequence
  if ∃ x ∈ st.store, x.eventId = eid then st
  else
    { store := st.store ++
        [{ eventId := eid, deviceId := raw.deviceId, subjectId := raw.subjectId,
           capturedAt := raw.capturedAt, receivedAt := receivedAt,
           syncState := SyncState.Pending, syncAttempts := 0 }],
      exportQueue := st.exportQueue ++ [eid] }

/-- Modelled from the spec (§8): a whole sequence of `ingest` calls, each
delivery carrying the raw event and the server-clock `receivedAt` of that
delivery. -/
def ingestAll (st : ProcState) : List (RawEvent × Nat) → ProcState
  | [] => st
  | (r, t) :: rest => ingestAll (ingest st r t) rest

/-- Modelled from the spec (§3): process-wide Config — ERP endpoint,
backoff intervals, authentication token, device allow-list, and the
ExportSync bounds; the config loader source is missing from the tree. -/
structure Config where
  erpEndpoint : String
  authToken : String
  allowList : List String
  baseBackoff : Nat
  backoffCap : Nat
  maxAttempts : Nat
  batchLimit : Nat
deriving DecidableEq, Repr

/-- Modelled from the spec (§3, §4.1): ConnectionManager state — the
registry of active Sessions keyed by `deviceId` (a session is identified
by a numeric handle) and the log of closed sessions with their recorded
close reason; the ConnectionManager source is missing from the tree. -/
structure CMState where
  registry : List (String × Nat)
  closedLog : List (Nat × CloseReason)
deriving DecidableEq, Repr

/-- Modelled from the spec (§3, §4.1): registering a DeviceLink keyed by
`deviceId` after a successful handshake.  A newly accepted connection for
an already-connected device supersedes and closes the old one, recording
close reason `Normal` (superseded, not an error); the ConnectionManager
source is missing from the tree. -/
def register (st : CMState) (d : String) (s : Nat) : CMState :=
  if ∃ p ∈ st.registry, p.1 = d then
    { registry := (d, s) :: st.registry.filter (fun p => decide (p.1 ≠ d)),
      closedLog := st.closedLog ++
        (st.registry.filter (fun p => decide (p.1 = d))).map
          (fun p => (p.2, CloseReason.Normal)) }
  else
    { registry := (d, s) :: st.registry, closedLog := st.closedLog }

/-- Modelled from the spec (§4.1): `accept(rawConnection)` — the device
presents `deviceId` and a shared secret/token; rejected with `AuthFailed`
on mismatch, `NotAllowed` if the device is not in the allow-list, else the
DeviceLink is registered.  The ConnectionManager source is missing from
the tree. -/
def accept (cfg : Config) (st : CMState) (d token : String) (s : Nat) :
    Except RejectReason Unit × CMState :=
  if token ≠ cfg.authToken then (Except.error RejectReason.AuthFailed, st)
  else if d ∉ cfg.allowList then (Except.error RejectReason.NotAllowed, st)
  else (Except.ok (), register st d s)

/-- Modelled from the spec (§4.4): the replay order of `listPending` —
oldest `receivedAt` first. -/
def receivedOrder (a b : AttendanceEvent) : Prop :=
  a.receivedAt ≤ b.receivedAt

instance : DecidableRel receivedOrder := fun a b => Nat.decLe a.receivedAt b.receivedAt

instance : IsTotal AttendanceEvent receivedOrder :=
  ⟨fun a b => Nat.le_total a.receivedAt b.receivedAt⟩

instance : IsTrans AttendanceEvent receivedOrder :=
  ⟨fun _ _ _ hab hbc => Nat.le_trans hab hbc⟩

/-- Modelled from the spec (§4.4): `listPending(limit)` — every event not
yet confirmed synced (`syncState ≠ Synced`, i.e. `Pending` or `Failed`),
ordered oldest `receivedAt` first, truncated to `limit`; the EventStore
source is missing from the tree. -/
def listPending (store : List AttendanceEvent) (limit : Nat) : List AttendanceEvent :=
  ((store.filter (fun e => decide (e.syncState ≠ SyncState.Synced))).insertionSort
    receivedOrder).take limit

/-- Modelled from the spec (§4.4): storage survives a process restart —
the durable store read back after a crash is the store that was last
written; the EventStore source is missing from the tree. -/
def restartStore (store : List AttendanceEvent) : List AttendanceEvent :=
  store

/-- Modelled from the spec (§4.4): `markSynced(eventId)`; the EventStore
source is missing from the tree. -/
def markSynced (store : List AttendanceEvent) (eid : String × Nat) : List AttendanceEvent :=
  store.map (fun e => if e.eventId = eid then { e with syncState := SyncState.Synced } else e)

/-- Modelled from the spec (§4.4, §4.5): `markSyncFailed(eventId)` — the
row is marked `Failed` and its `syncAttempts` is incremented; the
EventStore source is missing from the tree. -/
def markSyncFailed (store : List AttendanceEvent) (eid : String × Nat) : List AttendanceEvent :=
  store.map (fun e =>
    if e.eventId = eid then
      { e with syncState := SyncState.Failed, syncAttempts := e.syncAttempts + 1 }
    else e)

/-- Modelled from the spec (§4.5): exponential backoff capped at the
configured ceiling; the ExportSync source is missing from the tree. -/
def backoffDelay (cfg : Config) (attempts : Nat) : Nat :=
  min (cfg.baseBackoff * 2 ^ attempts) cfg.backoffCap

/-- Modelled from the spec (§4.5): the outcome of one transmission to the
ERP endpoint — a confirmed 2xx-equivalent acknowledgment, or a
non-confirmation (4xx/5xx-equivalent rejection, timeout, network error);
the ExportSync source is missing from the tree. -/
inductive SendOutcome
  | Acked
  | Rejected
  | TimedOut
  | NetworkError
deriving DecidableEq, Repr

/-- Modelled from the spec (§4.5): the events an ExportSync tick pulls for
(re)transmission — pending events via `listPending`, excluding events that
already reached the configured max-attempts (those remain `Failed`,
surfaced but not retried); the ExportSync source is missing from the
tree. -/
def retryBatch (cfg : Config) (store : List AttendanceEvent) : List AttendanceEvent :=
  (listPending store cfg.batchLimit).filter (fun e => decide (e.syncAttempts < cfg.maxAttempts))

/-- Modelled from the spec (§4.5): ExportSync transmitting one event and
reacting to the outcome — a confirmed acknowledgment calls `markSynced`
(no retry scheduled); any non-confirmation calls `markSyncFailed` and
schedules a retry after the capped exponential backoff computed from the
incremented attempt counter.  The ExportSync source is missing from the
tree. -/
def exportSendOne (cfg : Config) (store : List AttendanceEvent)
    (e : AttendanceEvent) (outcome : SendOutcome) : List AttendanceEvent × Option Nat :=
  match outcome with
  | SendOutcome.Acked => (markSynced store e.eventId, none)
  | _ => (markSyncFailed store e.eventId, some (backoffDelay cfg (e.syncAttempts + 1)))

/-- Modelled from the spec (§3, §4.2): the per-connection DeviceLink/Session
state — the owning device, the connection state, the count of consecutive
protocol errors, the monotonic sequence-number high-water mark used to
detect gaps, whether a full resync has been requested, and the close
reason once the link is force-closed; the DeviceLink source is missing
from the tree. -/
structure LinkState where
  deviceId : String
  connectionState : ConnState
  protocolErrors : Nat
  highWater : Nat
  resyncRequested : Bool
  closeReason : Option CloseReason
deriving DecidableEq, Repr

/-- Modelled from the spec (§4.2, §6): an inbound frame after framing — a
data frame carrying sequence number, subject and capture timestamp, a
heartbeat with no payload, or a malformed frame; the DeviceLink source is
missing from the tree. -/
inductive Frame
  | data (seq : Nat) (subjectId : String) (capturedAt : Nat)
  | heartbeat
  | malformed
deriving DecidableEq, Repr

/-- Modelled from the spec (§4.2): `onFrame(rawBytes)` — parse one inbound
frame into zero or one AttendanceEvent-shaped record.  A malformed frame
is discarded and the consecutive `ProtocolError` counter incremented;
three consecutive protocol errors force-close the link.  A well-formed
frame resets the consecutive counter.  A data frame whose sequence jumps
past the high-water mark sets `connectionState = Faulted` and requests a
full resync from the device rather than silently dropping events.  The
DeviceLink source is missing from the tree. -/
def onFrame (st : LinkState) (f : Frame) : LinkState × Option RawEvent :=
  match f with
  | Frame.malformed =>
    let errs := st.protocolErrors + 1
    if 3 ≤ errs then
      ({ st with protocolErrors := errs, closeReason := some CloseReason.ProtocolError }, none)
    else
      ({ st with protocolErrors := errs }, none)
  | Frame.heartbeat => ({ st with protocolErrors := 0 }, none)
  | Frame.data seq subj cap =>
    if st.highWater + 1 < seq then
      ({ st with connectionState := ConnState.Faulted, resyncRequested := true,
                 protocolErrors := 0 }, none)
    else
      ({ st with highWater := max st.highWater seq, protocolErrors := 0 },
       some { deviceId := st.deviceId, deviceSequence := seq, subjectId := subj,
              capturedAt := cap })

/-! ## Specifications used by the claim theorems -/

/-- Behaviour of the DeviceDetails save upsert on a rows list: a present
key is rewritten in place (pointwise map, same length); an absent key
appends exactly the one new row; the resulting keys are pairwise
distinct. -/
def UpsertSpec (rows result : List DRow) (id mach : String) : Prop :=
  ((∃ r ∈ rows, r.deviceId = id) →
      result = rows.map (fun r => if r.deviceId = id then { r with deviceMachId := mach } else r) ∧
      result.length = rows.length) ∧
  ((¬ ∃ r ∈ rows, r.deviceId = id) →
      result = rows ++ [{ id := rows.length + 1, deviceId := id, deviceMachId := mach }]) ∧
  (result.map (fun r => r.deviceId)).Nodup

/-- Behaviour of the DeviceDetails delete on a rows list: the result is a
sublist of the input (relative order preserved), contains no row with the
deleted key, keeps every row with a different key, and has exactly as many
rows as the input had rows with a different key. -/
def DeleteSpec (rows result : List DRow) (id : String) : Prop :=
  result.Sublist rows ∧
  (∀ r ∈ result, ¬ r.deviceId = id) ∧
  (∀ r ∈ rows, ¬ r.deviceId = id → r ∈ result) ∧
  result.length = rows.countP (fun r => decide (r.deviceId ≠ id))

theorem handleSave_spec (rows : List DRow) (fid fmach : String)
    (hnodup : (rows.map (fun r => r.deviceId)).Nodup)
    (hid : jsTrim fid ≠ "") (hmach : jsTrim fmach ≠ "") :
    UpsertSpec rows (DeviceDetailsManager.handleSave rows fid fmach) (jsTrim fid) (jsTrim fmach) := by
  have hguard : ¬ (jsTrim fid = "" ∨ jsTrim fmach = "") := not_or.mpr ⟨hid, hmach⟩
  have hpw : rows.Pairwise (fun a b => a.deviceId = jsTrim fid → b.deviceId = jsTrim fid → False) := by
    have h1 : rows.Pairwise (fun a b => a.deviceId ≠ b.deviceId) :=
      (List.pairwise_map).mp hnodup
    exact h1.imp (fun hab ha hb => hab (ha.trans hb.symm))
  by_cases hex : ∃ r ∈ rows, r.deviceId = jsTrim fid
  · have hres : DeviceDetailsManager.handleSave rows fid fmach =
        updFirst (fun r => r.deviceId = jsTrim fid)
          (fun r => { r with deviceMachId := jsTrim fmach }) rows := by
      simp only [DeviceDetailsManager.handleSave]
      rw [if_neg hguard, if_pos hex]
    refine ⟨fun _ => ⟨?_, ?_⟩, fun h => absurd hex h, ?_⟩
    · rw [hres]
      exact updFirst_eq_map_of_pairwise _ _ rows hpw
    · rw [hres]
      exact updFirst_length _ _ rows
    · rw [hres, map_updFirst (fun r => r.deviceId = jsTrim fid)
        (fun r => { r with deviceMachId := jsTrim fmach })
        (fun r => r.deviceId) (fun a _ => rfl) rows]
      exact hnodup
  · have hres : DeviceDetailsManager.handleSave rows fid fmach =
        rows ++ [{ id := rows.length + 1, deviceId := jsTrim fid, deviceMachId := jsTrim fmach }] := by
      simp only [DeviceDetailsManager.handleSave]
      rw [if_neg hguard, if_neg hex]
    refine ⟨fun h => absurd h hex, fun _ => hres, ?_⟩
    rw [hres]
    have hnotmem : jsTrim fid ∉ rows.map (fun r => r.deviceId) := by
      intro hm
      rcases List.mem_map.mp hm with ⟨r, hr, hrid⟩
      exact hex ⟨r, hr, hrid⟩
    rw [List.map_append, List.nodup_append]
    refine ⟨hnodup, List.nodup_singleton _, ?_⟩
    intro a ha hb
    simp only [List.map_cons, List.map_nil, List.mem_singleton] at hb
    rw [hb] at ha
    exact hnotmem ha

/-- Claim C8: in both DeviceDetails UI components, `handleSave` preserves
uniqueness of `deviceId` in the rows list — for pairwise-distinct rows and
a form with non-empty trimmed fields, a present id is rewritten in place
with no row added, an absent id appends exactly one new row, and the
resulting ids remain pairwise distinct. -/
theorem claim_C8_handleSave_unique (rows : List DRow) (fid fmach : String)
    (hnodup : (rows.map (fun r => r.deviceId)).Nodup)
    (hid : jsTrim fid ≠ "") (hmach : jsTrim fmach ≠ "") :
    UpsertSpec rows (DeviceDetailsManager.handleSave rows fid fmach) (jsTrim fid) (jsTrim fmach) ∧
    UpsertSpec rows (DeviceDetails.handleSave rows fid fmach) (jsTrim fid) (jsTrim fmach) := by
  have h := handleSave_spec rows fid fmach hnodup hid hmach
  have heq : DeviceDetails.handleSave = DeviceDetailsManager.handleSave := rfl
  exact ⟨h, by rw [heq]; exact h⟩

theorem claim_C8_witness :
    ((([{ id := 1, deviceId := "1", deviceMachId := "202008AMP065237B" }] : List DRow).map
        (fun r => r.deviceId)).Nodup ∧ jsTrim "1" ≠ "" ∧ jsTrim "B" ≠ "") ∧
    (UpsertSpec [{ id := 1, deviceId := "1", deviceMachId := "202008AMP065237B" }]
        (DeviceDetailsManager.handleSave
          [{ id := 1, deviceId := "1", deviceMachId := "202008AMP065237B" }] "1" "B")
        (jsTrim "1") (jsTrim "B") ∧
      UpsertSpec [{ id := 1, deviceId := "1", deviceMachId := "202008AMP065237B" }]
        (DeviceDetails.handleSave
          [{ id := 1, deviceId := "1", deviceMachId := "202008AMP065237B" }] "1" "B")
        (jsTrim "1") (jsTrim "B")) :=
  ⟨⟨by decide, by decide, by decide⟩,
    claim_C8_handleSave_unique
      [{ id := 1, deviceId := "1", deviceMachId := "202008AMP065237B" }] "1" "B"
      (by decide) (by decide) (by decide)⟩

theorem handleDelete_spec (rows : List DRow) (fid : String) (h : jsTrim fid ≠ "") :
    DeleteSpec rows (DeviceDetailsManager.handleDelete rows fid) (jsTrim fid) := by
  have hres : DeviceDetailsManager.handleDelete rows fid =
      rows.filter (fun r => decide (r.deviceId ≠ jsTrim fid)) := by
    simp only [DeviceDetailsManager.handleDelete]
    rw [if_neg h]
  refine ⟨?_, ?_, ?_, ?_⟩
  · rw [hres]; exact List.filter_sublist rows
  · intro r hr
    rw [hres] at hr
    have := (List.mem_filter.mp hr).2
    simpa using this
  · intro r hr hne
    rw [hres]
    exact List.mem_filter.mpr ⟨hr, by simpa using hne⟩
  · rw [hres, List.countP_eq_length_filter]

/-- Claim C9: in both DeviceDetails UI components, `handleDelete` removes
exactly the rows whose `deviceId` equals the trimmed form id, keeping every
other row and their relative order; with an empty trimmed id the rows list
is unchanged. -/
theorem claim_C9_handleDelete_exact (rows : List DRow) (fid : String) :
    (jsTrim fid ≠ "" →
      DeleteSpec rows (DeviceDetailsManager.handleDelete rows fid) (jsTrim fid) ∧
      DeleteSpec rows (DeviceDetails.handleDelete rows fid) (jsTrim fid)) ∧
    (jsTrim fid = "" →
      DeviceDetailsManager.handleDelete rows fid = rows ∧
      DeviceDetails.handleDelete rows fid = rows) := by
  have heq : DeviceDetails.handleDelete = DeviceDetailsManager.handleDelete := rfl
  constructor
  · intro h
    have hs := handleDelete_spec rows fid h
    exact ⟨hs, by rw [heq]; exact hs⟩
  · intro h
    have he : DeviceDetailsManager.handleDelete rows fid = rows := by
      simp only [DeviceDetailsManager.handleDelete]
      rw [if_pos h]
    exact ⟨he, by rw [heq]; exact he⟩

theorem claim_C9_witness :
    (jsTrim "1" ≠ "" ∧
      DeleteSpec [{ id := 1, deviceId := "1", deviceMachId := "M" }]
        (DeviceDetailsManager.handleDelete
          [{ id := 1, deviceId := "1", deviceMachId := "M" }] "1") (jsTrim "1") ∧
      DeleteSpec [{ id := 1, deviceId := "1", deviceMachId := "M" }]
        (DeviceDetails.handleDelete
          [{ id := 1, deviceId := "1", deviceMachId := "M" }] "1") (jsTrim "1")) ∧
    (jsTrim " " = "" ∧
      DeviceDetailsManager.handleDelete
        [{ id := 1, deviceId := "1", deviceMachId := "M" }] " " =
        [{ id := 1, deviceId := "1", deviceMachId := "M" }] ∧
      DeviceDetails.handleDelete
        [{ id := 1, deviceId := "1", deviceMachId := "M" }] " " =
        [{ id := 1, deviceId := "1", deviceMachId := "M" }]) :=
  ⟨⟨by decide,
      (claim_C9_handleDelete_exact [{ id := 1, deviceId := "1", deviceMachId := "M" }] "1").1
        (by decide)⟩,
    ⟨by decide,
      (claim_C9_handleDelete_exact [{ id := 1, deviceId := "1", deviceMachId := "M" }] " ").2
        (by decide)⟩⟩

theorem consumerType_onSave_idem (rows : List CTRow) (code nm : String)
    (hc : jsTrim code ≠ "") (hn : jsTrim nm ≠ "") :
    ConsumerType.onSave (ConsumerType.onSave rows code nm) code nm
      = ConsumerType.onSave rows code nm := by
  have hguard : ¬ (jsTrim code = "" ∨ jsTrim nm = "") := not_or.mpr ⟨hc, hn⟩
  by_cases hex : ∃ r ∈ rows, r.code = jsTrim code
  · have h1 : ConsumerType.onSave rows code nm =
        updFirst (fun r => r.code = jsTrim code)
          (fun r => { r with name := jsTrim nm }) rows := by
      simp only [ConsumerType.onSave]
      rw [if_neg hguard, if_pos hex]
    have hmap : (updFirst (fun r => r.code = jsTrim code)
        (fun r => { r with name := jsTrim nm }) rows).map (fun r => r.code)
        = rows.map (fun r => r.code) :=
      map_updFirst (fun r => r.code = jsTrim code)
        (fun r => { r with name := jsTrim nm }) (fun r => r.code) (fun a _ => rfl) rows
    have hex2 : ∃ r ∈ updFirst (fun r => r.code = jsTrim code)
        (fun r => { r with name := jsTrim nm }) rows, r.code = jsTrim code := by
      rcases hex with ⟨r, hr, hrc⟩
      have hm : jsTrim code ∈ (updFirst (fun r => r.code = jsTrim code)
          (fun r => { r with name := jsTrim nm }) rows).map (fun r => r.code) := by
        rw [hmap]
        exact List.mem_map.mpr ⟨r, hr, hrc⟩
      rcases List.mem_map.mp hm with ⟨x, hx, hxc⟩
      exact ⟨x, hx, hxc⟩
    have h2 : ConsumerType.onSave (updFirst (fun r => r.code = jsTrim code)
        (fun r => { r with name := jsTrim nm }) rows) code nm
        = updFirst (fun r => r.code = jsTrim code) (fun r => { r with name := jsTrim nm })
            (updFirst (fun r => r.code = jsTrim code)
              (fun r => { r with name := jsTrim nm }) rows) := by
      simp only [ConsumerType.onSave]
      rw [if_neg hguard, if_pos hex2]
    rw [h1, h2]
    exact updFirst_idem (fun r => r.code = jsTrim code)
      (fun r => { r with name := jsTrim nm }) (fun a ha => ha) (fun a _ => rfl) rows
  · have hnone : ∀ a ∈ rows, ¬ (a.code = jsTrim code) :=
      fun a ha hac => hex ⟨a, ha, hac⟩
    have h1 : ConsumerType.onSave rows code nm =
        rows ++ [({ id := rows.length + 1, code := jsTrim code, name := jsTrim nm } : CTRow)] := by
      simp only [ConsumerType.onSave]
      rw [if_neg hguard, if_neg hex]
    have hex2 : ∃ r ∈ rows ++ [({ id := rows.length + 1, code := jsTrim code, name := jsTrim nm } : CTRow)],
        r.code = jsTrim code :=
      ⟨{ id := rows.length + 1, code := jsTrim code, name := jsTrim nm },
        List.mem_append_right _ (List.mem_singleton_self _), rfl⟩
    have h2 : ConsumerType.onSave
        (rows ++ [{ id := rows.length + 1, code := jsTrim code, name := jsTrim nm }]) code nm
        = updFirst (fun r => r.code = jsTrim code) (fun r => { r with name := jsTrim nm })
            (rows ++ [{ id := rows.length + 1, code := jsTrim code, name := jsTrim nm }]) := by
      simp only [ConsumerType.onSave]
      rw [if_neg hguard, if_pos hex2]
    rw [h1, h2, updFirst_append_of_none _ _ rows _ hnone]
    simp [updFirst]

theorem consumerDetails_onSave_idem (rows : List ConsRow) (code nm a1 a2 ph : String)
    (hc : code ≠ "") (hn : nm ≠ "") :
    ConsumerDetailsManager.onSave (ConsumerDetailsManager.onSave rows code nm a1 a2 ph) code nm a1 a2 ph
      = ConsumerDetailsManager.onSave rows code nm a1 a2 ph := by
  have hguard : ¬ (code = "" ∨ nm = "") := not_or.mpr ⟨hc, hn⟩
  by_cases hex : ∃ r ∈ rows, r.code = code
  · have h1 : ConsumerDetailsManager.onSave rows code nm a1 a2 ph =
        updFirst (fun r => r.code = code)
          (fun r => { r with name := nm, address1 := a1, phone := ph }) rows := by
      simp only [ConsumerDetailsManager.onSave]
      rw [if_neg hguard, if_pos hex]
    have hmap : (updFirst (fun r => r.code = code)
        (fun r => { r with name := nm, address1 := a1, phone := ph }) rows).map (fun r => r.code)
        = rows.map (fun r => r.code) :=
      map_updFirst (fun r => r.code = code)
        (fun r => { r with name := nm, address1 := a1, phone := ph })
        (fun r => r.code) (fun a _ => rfl) rows
    have hex2 : ∃ r ∈ updFirst (fun r => r.code = code)
        (fun r => { r with name := nm, address1 := a1, phone := ph }) rows, r.code = code := by
      rcases hex with ⟨r, hr, hrc⟩
      have hm : code ∈ (updFirst (fun r => r.code = code)
          (fun r => { r with name := nm, address1 := a1, phone := ph }) rows).map
            (fun r => r.code) := by
        rw [hmap]
        exact List.mem_map.mpr ⟨r, hr, hrc⟩
      rcases List.mem_map.mp hm with ⟨x, hx, hxc⟩
      exact ⟨x, hx, hxc⟩
    have h2 : ConsumerDetailsManager.onSave (updFirst (fun r => r.code = code)
        (fun r => { r with name := nm, address1 := a1, phone := ph }) rows) code nm a1 a2 ph
        = updFirst (fun r => r.code = code)
            (fun r => { r with name := nm, address1 := a1, phone := ph })
            (updFirst (fun r => r.code = code)
              (fun r => { r with name := nm, address1 := a1, phone := ph }) rows) := by
      simp only [ConsumerDetailsManager.onSave]
      rw [if_neg hguard, if_pos hex2]
    rw [h1, h2]
    exact updFirst_idem (fun r => r.code = code)
      (fun r => { r with name := nm, address1 := a1, phone := ph })
      (fun a ha => ha) (fun a _ => rfl) rows
  · have hnone : ∀ a ∈ rows, ¬ (a.code = code) :=
      fun a ha hac => hex ⟨a, ha, hac⟩
    have h1 : ConsumerDetailsManager.onSave rows code nm a1 a2 ph =
        rows ++ [{ id := rows.length + 1, code := code, name := nm, address1 := a1, address2 := a2, phone := ph }] := by
      simp only [ConsumerDetailsManager.onSave]
      rw [if_neg hguard, if_neg hex]
    have hex2 : ∃ r ∈ rows ++ [({ id := rows.length + 1, code := code, name := nm, address1 := a1, address2 := a2, phone := ph } : ConsRow)], r.code = code :=
      ⟨{ id := rows.length + 1, code := code, name := nm, address1 := a1, address2 := a2, phone := ph },
        List.mem_append_right _ (List.mem_singleton_self _), rfl⟩
    have h2 : ConsumerDetailsManager.onSave
        (rows ++ [{ id := rows.length + 1, code := code, name := nm, address1 := a1, address2 := a2, phone := ph }]) code nm a1 a2 ph
        = updFirst (fun r => r.code = code)
            (fun r => { r with name := nm, address1 := a1, phone := ph })
            (rows ++ [{ id := rows.length + 1, code := code, name := nm, address1 := a1, address2 := a2, phone := ph }]) := by
      simp only [ConsumerDetailsManager.onSave]
      rw [if_neg hguard, if_pos hex2]
    rw [h1, h2, updFirst_append_of_none _ _ rows _ hnone]
    simp [updFirst]

/-- Claim C10: the save-by-code upsert is idempotent in both consumer UI
components — applying it twice for the same form yields the same rows list
as applying it once; the second application finds the code present and
rewrites the same field values without appending a row. -/
theorem claim_C10_onSave_idempotent (rows1 : List CTRow) (code nm : String)
    (rows2 : List ConsRow) (code2 nm2 a1 a2 ph : String)
    (hc : jsTrim code ≠ "") (hn : jsTrim nm ≠ "")
    (hc2 : code2 ≠ "") (hn2 : nm2 ≠ "") :
    ConsumerType.onSave (ConsumerType.onSave rows1 code nm) code nm
      = ConsumerType.onSave rows1 code nm ∧
    ConsumerDetailsManager.onSave
        (ConsumerDetailsManager.onSave rows2 code2 nm2 a1 a2 ph) code2 nm2 a1 a2 ph
      = ConsumerDetailsManager.onSave rows2 code2 nm2 a1 a2 ph :=
  ⟨consumerType_onSave_idem rows1 code nm hc hn,
   consumerDetails_onSave_idem rows2 code2 nm2 a1 a2 ph hc2 hn2⟩

theorem claim_C10_witness :
    (jsTrim "4" ≠ "" ∧ jsTrim "INDUSTRIAL" ≠ "" ∧ ("46" : String) ≠ "" ∧ ("ABBU" : String) ≠ "") ∧
    (ConsumerType.onSave
        (ConsumerType.onSave [{ id := 1, code := "1", name := "DOMESTIC" }] "4" "INDUSTRIAL")
        "4" "INDUSTRIAL"
      = ConsumerType.onSave [{ id := 1, code := "1", name := "DOMESTIC" }] "4" "INDUSTRIAL" ∧
    ConsumerDetailsManager.onSave
        (ConsumerDetailsManager.onSave [] "46" "ABBU" "" "" "9164404") "46" "ABBU" "" "" "9164404"
      = ConsumerDetailsManager.onSave [] "46" "ABBU" "" "" "9164404") :=
  ⟨⟨by decide, by decide, by decide, by decide⟩,
    claim_C10_onSave_idempotent [{ id := 1, code := "1", name := "DOMESTIC" }] "4" "INDUSTRIAL"
      [] "46" "ABBU" "" "" "9164404" (by decide) (by decide) (by decide) (by decide)⟩

/-- Claim C7 counterexample: the claim that both packaging manifests
declare every spec-required runtime module in `hiddenimports` is false —
`threading` is required by the spec, but the manifest in
`src/unnamed/part_010` does not list it. -/
theorem claim_C7_counterexample :
    "threading" ∈ Manifests.specRequiredModules ∧
    "threading" ∉ Manifests.part010_hiddenimports := by
  decide

/-- Claim C7 (amended): the three-script manifest (`src/unnamed/part_000`)
declares all five spec-required runtime modules; the single-script manifest
(`src/unnamed/part_010`) declares all of them except `threading`, which it
omits. -/
theorem claim_C7_amended_manifests :
    Manifests.specRequiredModules.all
      (fun m => decide (m ∈ Manifests.part000_hiddenimports)) = true ∧
    (Manifests.specRequiredModules.filter (fun m => decide (m ≠ "threading"))).all
      (fun m => decide (m ∈ Manifests.part010_hiddenimports)) = true ∧
    "threading" ∉ Manifests.part010_hiddenimports := by
  decide

/-! ## Server theorems (about the spec model) -/

theorem ingest_present (st : ProcState) (raw : RawEvent) (t : Nat)
    (h : ∃ x ∈ st.store, x.eventId = mkEventId raw.deviceId raw.deviceSequence) :
    ingest st raw t = st := by
  simp only [ingest]
  rw [if_pos h]

theorem ingestAll_present :
    ∀ (rest : List (RawEvent × Nat)) (st : ProcState) (eid : String × Nat),
      (∃ x ∈ st.store, x.eventId = eid) →
      (∀ p ∈ rest, mkEventId p.1.deviceId p.1.deviceSequence = eid) →
      ingestAll st rest = st := by
  intro rest
  induction rest with
  | nil => intro st eid _ _; rfl
  | cons p rest ih =>
    intro st eid hpresent hsame
    obtain ⟨r, t⟩ := p
    have hkey : mkEventId r.deviceId r.deviceSequence = eid :=
      hsame (r, t) (List.mem_cons_self _ _)
    rw [ingestAll, ingest_present st r t (by rw [hkey]; exact hpresent)]
    exact ih st eid hpresent (fun q hq => hsame q (List.mem_cons_of_mem _ hq))

/-- Claim C1: ingest is idempotent — after the first `ingest` of a
`(deviceId, deviceSequence)` key that the store does not yet hold, exactly
one AttendanceEvent row with the deterministic `eventId` exists and the id
is enqueued for export exactly once, and every further delivery of the
same key (any subject/timestamp payload) leaves the whole state unchanged:
no new row, no re-enqueue. -/
theorem claim_C1_ingest_idempotent (st : ProcState) (r1 : RawEvent) (t1 : Nat)
    (rest : List (RawEvent × Nat))
    (hsame : ∀ p ∈ rest, p.1.deviceId = r1.deviceId ∧ p.1.deviceSequence = r1.deviceSequence)
    (hfresh : st.store.countP
      (fun x => decide (x.eventId = mkEventId r1.deviceId r1.deviceSequence)) = 0) :
    ingestAll st ((r1, t1) :: rest) = ingest st r1 t1 ∧
    (ingest st r1 t1).store.countP
      (fun x => decide (x.eventId = mkEventId r1.deviceId r1.deviceSequence)) = 1 ∧
    (ingest st r1 t1).exportQueue = st.exportQueue ++ [mkEventId r1.deviceId r1.deviceSequence] := by
  have hnone : ¬ ∃ x ∈ st.store, x.eventId = mkEventId r1.deviceId r1.deviceSequence := by
    intro ⟨x, hx, hxe⟩
    have := List.countP_eq_zero.mp hfresh x hx
    simp [hxe] at this
  have hstep : ingest st r1 t1 =
      { store := st.store ++
          [{ eventId := mkEventId r1.deviceId r1.deviceSequence, deviceId := r1.deviceId,
             subjectId := r1.subjectId, capturedAt := r1.capturedAt, receivedAt := t1,
             syncState := SyncState.Pending, syncAttempts := 0 }],
        exportQueue := st.exportQueue ++ [mkEventId r1.deviceId r1.deviceSequence] } := by
    simp only [ingest]
    rw [if_neg hnone]
  refine ⟨?_, ?_, ?_⟩
  · rw [ingestAll]
    exact ingestAll_present rest (ingest st r1 t1) (mkEventId r1.deviceId r1.deviceSequence)
      (by
        rw [hstep]
        exact ⟨_, List.mem_append_right _ (List.mem_singleton_self _), rfl⟩)
      (fun q hq => by
        rcases hsame q hq with ⟨hd, hs⟩
        rw [hd, hs])
  · rw [hstep]
    simp only [List.countP_append, hfresh]
    simp [List.countP_cons]
  · rw [hstep]

theorem claim_C1_witness :
    ((∀ p ∈ ([({ deviceId := "D1", deviceSequence := 2, subjectId := "S1", capturedAt := 100 }, 205)] : List (RawEvent × Nat)), p.1.deviceId = ({ deviceId := "D1", deviceSequence := 2, subjectId := "S1", capturedAt := 100 } : RawEvent).deviceId ∧ p.1.deviceSequence = ({ deviceId := "D1", deviceSequence := 2, subjectId := "S1", capturedAt := 100 } : RawEvent).deviceSequence) ∧
      ({ store := [], exportQueue := [] } : ProcState).store.countP (fun x => decide (x.eventId = mkEventId "D1" 2)) = 0) ∧
    (ingestAll { store := [], exportQueue := [] } (({ deviceId := "D1", deviceSequence := 2, subjectId := "S1", capturedAt := 100 }, 200) :: [({ deviceId := "D1", deviceSequence := 2, subjectId := "S1", capturedAt := 100 }, 205)])
        = ingest { store := [], exportQueue := [] } { deviceId := "D1", deviceSequence := 2, subjectId := "S1", capturedAt := 100 } 200 ∧
      (ingest { store := [], exportQueue := [] } { deviceId := "D1", deviceSequence := 2, subjectId := "S1", capturedAt := 100 } 200).store.countP (fun x => decide (x.eventId = mkEventId "D1" 2)) = 1 ∧
      (ingest { store := [], exportQueue := [] } { deviceId := "D1", deviceSequence := 2, subjectId := "S1", capturedAt := 100 } 200).exportQueue = ([] : List (String × Nat)) ++ [mkEventId "D1" 2]) :=
  ⟨⟨by decide, by decide⟩,
    claim_C1_ingest_idempotent { store := [], exportQueue := [] }
      { deviceId := "D1", deviceSequence := 2, subjectId := "S1", capturedAt := 100 } 200
      [({ deviceId := "D1", deviceSequence := 2, subjectId := "S1", capturedAt := 100 }, 205)]
      (by decide) (by decide)⟩

/-- Claim C2: at most one live Session per deviceId — when a device is
already connected (with pairwise-distinct registry keys), accepting a
second connection with the same deviceId succeeds, closes the old session
with reason `Normal` (superseded, not an error), registers the new
session, and leaves exactly one registry entry for that deviceId, keys
still pairwise distinct. -/
theorem claim_C2_supersede_unique (cfg : Config) (st : CMState) (d token : String)
    (s old : Nat)
    (hnodup : (st.registry.map Prod.fst).Nodup)
    (hconn : (d, old) ∈ st.registry)
    (htok : token = cfg.authToken)
    (hallow : d ∈ cfg.allowList) :
    (accept cfg st d token s).1 = Except.ok () ∧
    (d, s) ∈ (accept cfg st d token s).2.registry ∧
    (accept cfg st d token s).2.registry.countP (fun p => decide (p.1 = d)) = 1 ∧
    ((accept cfg st d token s).2.registry.map Prod.fst).Nodup ∧
    (old, CloseReason.Normal) ∈ (accept cfg st d token s).2.closedLog := by
  have hacc : accept cfg st d token s = (Except.ok (), register st d s) := by
    simp only [accept]
    rw [if_neg (by simp [htok]), if_neg (by simp [hallow])]
  have hex : ∃ p ∈ st.registry, p.1 = d := ⟨(d, old), hconn, rfl⟩
  have hreg : register st d s =
      { registry := (d, s) :: st.registry.filter (fun p => decide (p.1 ≠ d)),
        closedLog := st.closedLog ++
          (st.registry.filter (fun p => decide (p.1 = d))).map
            (fun p => (p.2, CloseReason.Normal)) } := by
    simp only [register]
    rw [if_pos hex]
  rw [hacc]
  refine ⟨rfl, ?_, ?_, ?_, ?_⟩
  · rw [hreg]
    exact List.mem_cons_self _ _
  · rw [hreg]
    simp only [List.countP_cons]
    have hzero : (st.registry.filter (fun p => decide (p.1 ≠ d))).countP
        (fun p => decide (p.1 = d)) = 0 := by
      apply List.countP_eq_zero.mpr
      intro a ha
      have := (List.mem_filter.mp ha).2
      simpa using this
    simp [hzero]
  · rw [hreg]
    simp only [List.map_cons]
    apply List.nodup_cons.mpr
    constructor
    · intro hmem
      rcases List.mem_map.mp hmem with ⟨p, hp, hpd⟩
      have := (List.mem_filter.mp hp).2
      simp [hpd] at this
    · exact ((List.filter_sublist st.registry).map Prod.fst).nodup hnodup
  · rw [hreg]
    apply List.mem_append_right
    apply List.mem_map.mpr
    exact ⟨(d, old), List.mem_filter.mpr ⟨hconn, by simp⟩, rfl⟩

theorem claim_C2_witness :
    (((([("D1", 7)] : List (String × Nat)).map Prod.fst).Nodup ∧
        ("D1", 7) ∈ ([("D1", 7)] : List (String × Nat)) ∧
        ("tok" : String) = "tok" ∧ "D1" ∈ ["D1", "D2"]) ∧
      ((accept { erpEndpoint := "e", authToken := "tok", allowList := ["D1", "D2"], baseBackoff := 1, backoffCap := 60, maxAttempts := 5, batchLimit := 10 } { registry := [("D1", 7)], closedLog := [] } "D1" "tok" 8).1 = Except.ok () ∧
        ("D1", 8) ∈ (accept { erpEndpoint := "e", authToken := "tok", allowList := ["D1", "D2"], baseBackoff := 1, backoffCap := 60, maxAttempts := 5, batchLimit := 10 } { registry := [("D1", 7)], closedLog := [] } "D1" "tok" 8).2.registry ∧
        (accept { erpEndpoint := "e", authToken := "tok", allowList := ["D1", "D2"], baseBackoff := 1, backoffCap := 60, maxAttempts := 5, batchLimit := 10 } { registry := [("D1", 7)], closedLog := [] } "D1" "tok" 8).2.registry.countP (fun p => decide (p.1 = "D1")) = 1 ∧
        ((accept { erpEndpoint := "e", authToken := "tok", allowList := ["D1", "D2"], baseBackoff := 1, backoffCap := 60, maxAttempts := 5, batchLimit := 10 } { registry := [("D1", 7)], closedLog := [] } "D1" "tok" 8).2.registry.map Prod.fst).Nodup ∧
        (7, CloseReason.Normal) ∈ (accept { erpEndpoint := "e", authToken := "tok", allowList := ["D1", "D2"], baseBackoff := 1, backoffCap := 60, maxAttempts := 5, batchLimit := 10 } { registry := [("D1", 7)], closedLog := [] } "D1" "tok" 8).2.closedLog)) :=
  ⟨⟨by decide, by decide, rfl, by decide⟩,
    claim_C2_supersede_unique
      { erpEndpoint := "e", authToken := "tok", allowList := ["D1", "D2"], baseBackoff := 1, backoffCap := 60, maxAttempts := 5, batchLimit := 10 }
      { registry := [("D1", 7)], closedLog := [] } "D1" "tok" 8 7
      (by decide) (by decide) rfl (by decide)⟩

/-- Claim C6: a handshake is rejected with `AuthFailed` exactly when the
presented token mismatches the configured shared secret; when the token
matches, it is rejected with `NotAllowed` exactly when the deviceId is not
in the configured allow-list; and on every rejection the ConnectionManager
state is unchanged — no DeviceLink is registered. -/
theorem claim_C6_handshake_rejection (cfg : Config) (st : CMState) (d token : String) (s : Nat) :
    ((accept cfg st d token s).1 = Except.error RejectReason.AuthFailed ↔ token ≠ cfg.authToken) ∧
    (token = cfg.authToken →
      ((accept cfg st d token s).1 = Except.error RejectReason.NotAllowed ↔ d ∉ cfg.allowList)) ∧
    (∀ reason, (accept cfg st d token s).1 = Except.error reason →
      (accept cfg st d token s).2 = st) := by
  by_cases htok : token = cfg.authToken
  · by_cases hallow : d ∈ cfg.allowList
    · have hacc : accept cfg st d token s = (Except.ok (), register st d s) := by
        simp only [accept]
        rw [if_neg (by simp [htok]), if_neg (by simp [hallow])]
      rw [hacc]
      refine ⟨?_, ?_, ?_⟩
      · simp [htok]
      · intro _
        simp [hallow]
      · intro reason h
        simp at h
    · have hacc : accept cfg st d token s = (Except.error RejectReason.NotAllowed, st) := by
        simp only [accept]
        rw [if_neg (by simp [htok]), if_pos hallow]
      rw [hacc]
      refine ⟨?_, ?_, ?_⟩
      · simp [htok]
      · intro _
        simp [hallow]
      · intro reason _
        rfl
  · have hacc : accept cfg st d token s = (Except.error RejectReason.AuthFailed, st) := by
      simp only [accept]
      rw [if_pos htok]
    rw [hacc]
    refine ⟨?_, ?_, ?_⟩
    · simp [htok]
    · intro h
      exact absurd h htok
    · intro reason _
      rfl

theorem claim_C6_witness :
    (("bad" : String) ≠ "tok" ∧
      (accept { erpEndpoint := "e", authToken := "tok", allowList := ["D1"], baseBackoff := 1, backoffCap := 60, maxAttempts := 5, batchLimit := 10 } { registry := [], closedLog := [] } "D2" "bad" 3).1 = Except.error RejectReason.AuthFailed ∧
      (accept { erpEndpoint := "e", authToken := "tok", allowList := ["D1"], baseBackoff := 1, backoffCap := 60, maxAttempts := 5, batchLimit := 10 } { registry := [], closedLog := [] } "D2" "bad" 3).2 = { registry := [], closedLog := [] }) ∧
    ("D2" ∉ (["D1"] : List String) ∧
      (accept { erpEndpoint := "e", authToken := "tok", allowList := ["D1"], baseBackoff := 1, backoffCap := 60, maxAttempts := 5, batchLimit := 10 } { registry := [], closedLog := [] } "D2" "tok" 3).1 = Except.error RejectReason.NotAllowed ∧
      (accept { erpEndpoint := "e", authToken := "tok", allowList := ["D1"], baseBackoff := 1, backoffCap := 60, maxAttempts := 5, batchLimit := 10 } { registry := [], closedLog := [] } "D2" "tok" 3).2 = { registry := [], closedLog := [] }) :=
  ⟨⟨by decide,
    (claim_C6_handshake_rejection { erpEndpoint := "e", authToken := "tok", allowList := ["D1"], baseBackoff := 1, backoffCap := 60, maxAttempts := 5, batchLimit := 10 } { registry := [], closedLog := [] } "D2" "bad" 3).1.mpr (by decide),
    (claim_C6_handshake_rejection { erpEndpoint := "e", authToken := "tok", allowList := ["D1"], baseBackoff := 1, backoffCap := 60, maxAttempts := 5, batchLimit := 10 } { registry := [], closedLog := [] } "D2" "bad" 3).2.2 RejectReason.AuthFailed
      ((claim_C6_handshake_rejection { erpEndpoint := "e", authToken := "tok", allowList := ["D1"], baseBackoff := 1, backoffCap := 60, maxAttempts := 5, batchLimit := 10 } { registry := [], closedLog := [] } "D2" "bad" 3).1.mpr (by decide))⟩,
   ⟨by decide,
    ((claim_C6_handshake_rejection { erpEndpoint := "e", authToken := "tok", allowList := ["D1"], baseBackoff := 1, backoffCap := 60, maxAttempts := 5, batchLimit := 10 } { registry := [], closedLog := [] } "D2" "tok" 3).2.1 rfl).mpr (by decide),
    (claim_C6_handshake_rejection { erpEndpoint := "e", authToken := "tok", allowList := ["D1"], baseBackoff := 1, backoffCap := 60, maxAttempts := 5, batchLimit := 10 } { registry := [], closedLog := [] } "D2" "tok" 3).2.2 RejectReason.NotAllowed
      (((claim_C6_handshake_rejection { erpEndpoint := "e", authToken := "tok", allowList := ["D1"], baseBackoff := 1, backoffCap := 60, maxAttempts := 5, batchLimit := 10 } { registry := [], closedLog := [] } "D2" "tok" 3).2.1 rfl).mpr (by decide))⟩⟩

/-- Claim C3: `listPending(limit)` returns pending events ordered oldest
`receivedAt` first, only events not confirmed synced (`Pending` or
`Failed`), and after a restart of the process (the durable store survives)
it returns, for a sufficient limit, exactly the set of events that were
marked `Pending` or `Failed` before the crash. -/
theorem claim_C3_listPending_replay (store : List AttendanceEvent) (limit : Nat) :
    (listPending store limit).Sorted receivedOrder ∧
    (∀ e ∈ listPending store limit,
      e.syncState = SyncState.Pending ∨ e.syncState = SyncState.Failed) ∧
    (store.length ≤ limit →
      (listPending (restartStore store) limit).Perm
        (store.filter (fun e => decide (e.syncState ≠ SyncState.Synced)))) := by
  have hsorted : (List.insertionSort receivedOrder
      (store.filter (fun e => decide (e.syncState ≠ SyncState.Synced)))).Sorted receivedOrder :=
    List.sorted_insertionSort receivedOrder _
  refine ⟨?_, ?_, ?_⟩
  · exact List.Pairwise.sublist (List.take_sublist _ _) hsorted
  · intro e he
    have h1 : e ∈ List.insertionSort receivedOrder
        (store.filter (fun x => decide (x.syncState ≠ SyncState.Synced))) :=
      List.take_subset _ _ he
    have h2 : e ∈ store.filter (fun x => decide (x.syncState ≠ SyncState.Synced)) :=
      (List.perm_insertionSort receivedOrder _).subset h1
    have h3 : e.syncState ≠ SyncState.Synced := by
      have := (List.mem_filter.mp h2).2
      simpa using this
    cases h : e.syncState with
    | Pending => exact Or.inl rfl
    | Synced => exact absurd h h3
    | Failed => exact Or.inr rfl
  · intro hle
    have hlen : (List.insertionSort receivedOrder
        (store.filter (fun e => decide (e.syncState ≠ SyncState.Synced)))).length ≤ limit := by
      rw [(List.perm_insertionSort receivedOrder _).length_eq]
      exact le_trans (List.length_filter_le _ _) hle
    simp only [listPending, restartStore]
    rw [List.take_of_length_le hlen]
    exact List.perm_insertionSort receivedOrder _

theorem claim_C3_witness :
    (([{ eventId := ("D1", 1), deviceId := "D1", subjectId := "S1", capturedAt := 10, receivedAt := 20, syncState := SyncState.Pending, syncAttempts := 0 }, { eventId := ("D1", 2), deviceId := "D1", subjectId := "S1", capturedAt := 11, receivedAt := 21, syncState := SyncState.Synced, syncAttempts := 1 }, { eventId := ("D1", 3), deviceId := "D1", subjectId := "S1", capturedAt := 12, receivedAt := 19, syncState := SyncState.Failed, syncAttempts := 2 }] : List AttendanceEvent).length ≤ 10) ∧
    ((listPending [{ eventId := ("D1", 1), deviceId := "D1", subjectId := "S1", capturedAt := 10, receivedAt := 20, syncState := SyncState.Pending, syncAttempts := 0 }, { eventId := ("D1", 2), deviceId := "D1", subjectId := "S1", capturedAt := 11, receivedAt := 21, syncState := SyncState.Synced, syncAttempts := 1 }, { eventId := ("D1", 3), deviceId := "D1", subjectId := "S1", capturedAt := 12, receivedAt := 19, syncState := SyncState.Failed, syncAttempts := 2 }] 10).Sorted receivedOrder ∧
     (∀ e ∈ listPending [{ eventId := ("D1", 1), deviceId := "D1", subjectId := "S1", capturedAt := 10, receivedAt := 20, syncState := SyncState.Pending, syncAttempts := 0 }, { eventId := ("D1", 2), deviceId := "D1", subjectId := "S1", capturedAt := 11, receivedAt := 21, syncState := SyncState.Synced, syncAttempts := 1 }, { eventId := ("D1", 3), deviceId := "D1", subjectId := "S1", capturedAt := 12, receivedAt := 19, syncState := SyncState.Failed, syncAttempts := 2 }] 10,
        e.syncState = SyncState.Pending ∨ e.syncState = SyncState.Failed) ∧
     (listPending (restartStore [{ eventId := ("D1", 1), deviceId := "D1", subjectId := "S1", capturedAt := 10, receivedAt := 20, syncState := SyncState.Pending, syncAttempts := 0 }, { eventId := ("D1", 2), deviceId := "D1", subjectId := "S1", capturedAt := 11, receivedAt := 21, syncState := SyncState.Synced, syncAttempts := 1 }, { eventId := ("D1", 3), deviceId := "D1", subjectId := "S1", capturedAt := 12, receivedAt := 19, syncState := SyncState.Failed, syncAttempts := 2 }]) 10).Perm
       ([{ eventId := ("D1", 1), deviceId := "D1", subjectId := "S1", capturedAt := 10, receivedAt := 20, syncState := SyncState.Pending, syncAttempts := 0 }, { eventId := ("D1", 2), deviceId := "D1", subjectId := "S1", capturedAt := 11, receivedAt := 21, syncState := SyncState.Synced, syncAttempts := 1 }, { eventId := ("D1", 3), deviceId := "D1", subjectId := "S1", capturedAt := 12, receivedAt := 19, syncState := SyncState.Failed, syncAttempts := 2 }].filter (fun e => decide (e.syncState ≠ SyncState.Synced)))) :=
  ⟨by decide,
    (claim_C3_listPending_replay [{ eventId := ("D1", 1), deviceId := "D1", subjectId := "S1", capturedAt := 10, receivedAt := 20, syncState := SyncState.Pending, syncAttempts := 0 }, { eventId := ("D1", 2), deviceId := "D1", subjectId := "S1", capturedAt := 11, receivedAt := 21, syncState := SyncState.Synced, syncAttempts := 1 }, { eventId := ("D1", 3), deviceId := "D1", subjectId := "S1", capturedAt := 12, receivedAt := 19, syncState := SyncState.Failed, syncAttempts := 2 }] 10).1,
    (claim_C3_listPending_replay [{ eventId := ("D1", 1), deviceId := "D1", subjectId := "S1", capturedAt := 10, receivedAt := 20, syncState := SyncState.Pending, syncAttempts := 0 }, { eventId := ("D1", 2), deviceId := "D1", subjectId := "S1", capturedAt := 11, receivedAt := 21, syncState := SyncState.Synced, syncAttempts := 1 }, { eventId := ("D1", 3), deviceId := "D1", subjectId := "S1", capturedAt := 12, receivedAt := 19, syncState := SyncState.Failed, syncAttempts := 2 }] 10).2.1,
    (claim_C3_listPending_replay [{ eventId := ("D1", 1), deviceId := "D1", subjectId := "S1", capturedAt := 10, receivedAt := 20, syncState := SyncState.Pending, syncAttempts := 0 }, { eventId := ("D1", 2), deviceId := "D1", subjectId := "S1", capturedAt := 11, receivedAt := 21, syncState := SyncState.Synced, syncAttempts := 1 }, { eventId := ("D1", 3), deviceId := "D1", subjectId := "S1", capturedAt := 12, receivedAt := 19, syncState := SyncState.Failed, syncAttempts := 2 }] 10).2.2 (by decide)⟩

/-- Claim C4: ExportSync marks an event `Synced` only on a confirmed
acknowledgment; on any non-confirmation it marks the event `Failed` with
`syncAttempts` incremented and schedules a retry whose exponential backoff
never exceeds the configured ceiling; no outcome removes rows from the
store, other rows are untouched, and events at or beyond the configured
max-attempts are never selected for retry. -/
theorem claim_C4_export_backoff (cfg : Config) (store : List AttendanceEvent)
    (e : AttendanceEvent) (outcome : SendOutcome) (he : e ∈ store) :
    (exportSendOne cfg store e outcome).1.length = store.length ∧
    (outcome = SendOutcome.Acked →
      { e with syncState := SyncState.Synced } ∈ (exportSendOne cfg store e outcome).1 ∧
      (exportSendOne cfg store e outcome).2 = none) ∧
    (outcome ≠ SendOutcome.Acked →
      (∀ x ∈ (exportSendOne cfg store e outcome).1, x.syncState = SyncState.Synced → x ∈ store) ∧
      { e with syncState := SyncState.Failed, syncAttempts := e.syncAttempts + 1 }
        ∈ (exportSendOne cfg store e outcome).1 ∧
      (exportSendOne cfg store e outcome).2 = some (backoffDelay cfg (e.syncAttempts + 1))) ∧
    (∀ x ∈ store, x.eventId ≠ e.eventId → x ∈ (exportSendOne cfg store e outcome).1) ∧
    (∀ n, (exportSendOne cfg store e outcome).2 = some n → n ≤ cfg.backoffCap) ∧
    (∀ x, cfg.maxAttempts ≤ x.syncAttempts → x ∉ retryBatch cfg store) := by
  have hbatch : ∀ x, cfg.maxAttempts ≤ x.syncAttempts → x ∉ retryBatch cfg store := by
    intro x hx hmem
    have := (List.mem_filter.mp hmem).2
    have hlt : x.syncAttempts < cfg.maxAttempts := by simpa using this
    exact absurd hx (Nat.not_le_of_lt hlt)
  have hcap : backoffDelay cfg (e.syncAttempts + 1) ≤ cfg.backoffCap :=
    Nat.min_le_right _ _
  cases outcome with
  | Acked =>
    refine ⟨by simp [exportSendOne, markSynced], ?_, ?_, ?_, ?_, hbatch⟩
    · intro _
      refine ⟨?_, rfl⟩
      simp only [exportSendOne, markSynced]
      exact List.mem_map.mpr ⟨e, he, by simp⟩
    · intro h
      exact absurd rfl h
    · intro x hx hne
      simp only [exportSendOne, markSynced]
      exact List.mem_map.mpr ⟨x, hx, by simp [hne]⟩
    · intro n hn
      simp [exportSendOne] at hn
  | Rejected =>
    refine ⟨by simp [exportSendOne, markSyncFailed], ?_, ?_, ?_, ?_, hbatch⟩
    · intro h
      simp at h
    · intro _
      refine ⟨?_, ?_, rfl⟩
      · intro x hx hsync
        simp only [exportSendOne, markSyncFailed] at hx
        rcases List.mem_map.mp hx with ⟨y, hy, hyx⟩
        by_cases hid : y.eventId = e.eventId
        · rw [if_pos hid] at hyx
          rw [← hyx] at hsync
          simp at hsync
        · rw [if_neg hid] at hyx
          rw [← hyx]
          exact hy
      · simp only [exportSendOne, markSyncFailed]
        exact List.mem_map.mpr ⟨e, he, by simp⟩
    · intro x hx hne
      simp only [exportSendOne, markSyncFailed]
      exact List.mem_map.mpr ⟨x, hx, by simp [hne]⟩
    · intro n hn
      simp only [exportSendOne] at hn
      rw [← Option.some_inj.mp hn]
      exact hcap
  | TimedOut =>
    refine ⟨by simp [exportSendOne, markSyncFailed], ?_, ?_, ?_, ?_, hbatch⟩
    · intro h
      simp at h
    · intro _
      refine ⟨?_, ?_, rfl⟩
      · intro x hx hsync
        simp only [exportSendOne, markSyncFailed] at hx
        rcases List.mem_map.mp hx with ⟨y, hy, hyx⟩
        by_cases hid : y.eventId = e.eventId
        · rw [if_pos hid] at hyx
          rw [← hyx] at hsync
          simp at hsync
        · rw [if_neg hid] at hyx
          rw [← hyx]
          exact hy
      · simp only [exportSendOne, markSyncFailed]
        exact List.mem_map.mpr ⟨e, he, by simp⟩
    · intro x hx hne
      simp only [exportSendOne, markSyncFailed]
      exact List.mem_map.mpr ⟨x, hx, by simp [hne]⟩
    · intro n hn
      simp only [exportSendOne] at hn
      rw [← Option.some_inj.mp hn]
      exact hcap
  | NetworkError =>
    refine ⟨by simp [exportSendOne, markSyncFailed], ?_, ?_, ?_, ?_, hbatch⟩
    · intro h
      simp at h
    · intro _
      refine ⟨?_, ?_, rfl⟩
      · intro x hx hsync
        simp only [exportSendOne, markSyncFailed] at hx
        rcases List.mem_map.mp hx with ⟨y, hy, hyx⟩
        by_cases hid : y.eventId = e.eventId
        · rw [if_pos hid] at hyx
          rw [← hyx] at hsync
          simp at hsync
        · rw [if_neg hid] at hyx
          rw [← hyx]
          exact hy
      · simp only [exportSendOne, markSyncFailed]
        exact List.mem_map.mpr ⟨e, he, by simp⟩
    · intro x hx hne
      simp only [exportSendOne, markSyncFailed]
      exact List.mem_map.mpr ⟨x, hx, by simp [hne]⟩
    · intro n hn
      simp only [exportSendOne] at hn
      rw [← Option.some_inj.mp hn]
      exact hcap

theorem claim_C4_witness :
    (({ eventId := ("D1", 1), deviceId := "D1", subjectId := "S1", capturedAt := 10, receivedAt := 20, syncState := SyncState.Pending, syncAttempts := 0 } : AttendanceEvent) ∈ ([{ eventId := ("D1", 1), deviceId := "D1", subjectId := "S1", capturedAt := 10, receivedAt := 20, syncState := SyncState.Pending, syncAttempts := 0 }] : List AttendanceEvent) ∧
      (SendOutcome.TimedOut : SendOutcome) ≠ SendOutcome.Acked) ∧
    ((exportSendOne { erpEndpoint := "e", authToken := "tok", allowList := ["D1"], baseBackoff := 2, backoffCap := 60, maxAttempts := 5, batchLimit := 10 } [{ eventId := ("D1", 1), deviceId := "D1", subjectId := "S1", capturedAt := 10, receivedAt := 20, syncState := SyncState.Pending, syncAttempts := 0 }] { eventId := ("D1", 1), deviceId := "D1", subjectId := "S1", capturedAt := 10, receivedAt := 20, syncState := SyncState.Pending, syncAttempts := 0 } SendOutcome.TimedOut).1.length = ([{ eventId := ("D1", 1), deviceId := "D1", subjectId := "S1", capturedAt := 10, receivedAt := 20, syncState := SyncState.Pending, syncAttempts := 0 }] : List AttendanceEvent).length ∧
     ({ eventId := ("D1", 1), deviceId := "D1", subjectId := "S1", capturedAt := 10, receivedAt := 20, syncState := SyncState.Failed, syncAttempts := 1 } : AttendanceEvent)
        ∈ (exportSendOne { erpEndpoint := "e", authToken := "tok", allowList := ["D1"], baseBackoff := 2, backoffCap := 60, maxAttempts := 5, batchLimit := 10 } [{ eventId := ("D1", 1), deviceId := "D1", subjectId := "S1", capturedAt := 10, receivedAt := 20, syncState := SyncState.Pending, syncAttempts := 0 }] { eventId := ("D1", 1), deviceId := "D1", subjectId := "S1", capturedAt := 10, receivedAt := 20, syncState := SyncState.Pending, syncAttempts := 0 } SendOutcome.TimedOut).1 ∧
     (exportSendOne { erpEndpoint := "e", authToken := "tok", allowList := ["D1"], baseBackoff := 2, backoffCap := 60, maxAttempts := 5, batchLimit := 10 } [{ eventId := ("D1", 1), deviceId := "D1", subjectId := "S1", capturedAt := 10, receivedAt := 20, syncState := SyncState.Pending, syncAttempts := 0 }] { eventId := ("D1", 1), deviceId := "D1", subjectId := "S1", capturedAt := 10, receivedAt := 20, syncState := SyncState.Pending, syncAttempts := 0 } SendOutcome.TimedOut).2
        = some (backoffDelay { erpEndpoint := "e", authToken := "tok", allowList := ["D1"], baseBackoff := 2, backoffCap := 60, maxAttempts := 5, batchLimit := 10 } 1)) :=
  ⟨⟨by decide, by decide⟩,
    (claim_C4_export_backoff { erpEndpoint := "e", authToken := "tok", allowList := ["D1"], baseBackoff := 2, backoffCap := 60, maxAttempts := 5, batchLimit := 10 } [{ eventId := ("D1", 1), deviceId := "D1", subjectId := "S1", capturedAt := 10, receivedAt := 20, syncState := SyncState.Pending, syncAttempts := 0 }] { eventId := ("D1", 1), deviceId := "D1", subjectId := "S1", capturedAt := 10, receivedAt := 20, syncState := SyncState.Pending, syncAttempts := 0 } SendOutcome.TimedOut (by decide)).1,
    ((claim_C4_export_backoff { erpEndpoint := "e", authToken := "tok", allowList := ["D1"], baseBackoff := 2, backoffCap := 60, maxAttempts := 5, batchLimit := 10 } [{ eventId := ("D1", 1), deviceId := "D1", subjectId := "S1", capturedAt := 10, receivedAt := 20, syncState := SyncState.Pending, syncAttempts := 0 }] { eventId := ("D1", 1), deviceId := "D1", subjectId := "S1", capturedAt := 10, receivedAt := 20, syncState := SyncState.Pending, syncAttempts := 0 } SendOutcome.TimedOut (by decide)).2.2.1 (by decide)).2.1,
    ((claim_C4_export_backoff { erpEndpoint := "e", authToken := "tok", allowList := ["D1"], baseBackoff := 2, backoffCap := 60, maxAttempts := 5, batchLimit := 10 } [{ eventId := ("D1", 1), deviceId := "D1", subjectId := "S1", capturedAt := 10, receivedAt := 20, syncState := SyncState.Pending, syncAttempts := 0 }] { eventId := ("D1", 1), deviceId := "D1", subjectId := "S1", capturedAt := 10, receivedAt := 20, syncState := SyncState.Pending, syncAttempts := 0 } SendOutcome.TimedOut (by decide)).2.2.1 (by decide)).2.2⟩

/-- Claim C5: DeviceLink never silently drops events — a data frame whose
sequence jumps past the high-water mark produces no event but sets
`connectionState = Faulted` and requests a full resync; a malformed frame
is discarded (no event) with the consecutive `ProtocolError` counter
incremented; and from a clean counter three consecutive malformed frames
force-close the link with reason `ProtocolError` while the first two do
not close it. -/
theorem claim_C5_gap_and_protocol_errors (st : LinkState) (seq : Nat) (subj : String) (cap : Nat) :
    (st.highWater + 1 < seq →
      (onFrame st (Frame.data seq subj cap)).1.connectionState = ConnState.Faulted ∧
      (onFrame st (Frame.data seq subj cap)).1.resyncRequested = true ∧
      (onFrame st (Frame.data seq subj cap)).2 = none) ∧
    ((onFrame st Frame.malformed).2 = none ∧
      (onFrame st Frame.malformed).1.protocolErrors = st.protocolErrors + 1) ∧
    (st.protocolErrors = 0 →
      (onFrame st Frame.malformed).1.closeReason = st.closeReason ∧
      (onFrame (onFrame st Frame.malformed).1 Frame.malformed).1.closeReason = st.closeReason ∧
      (onFrame (onFrame (onFrame st Frame.malformed).1 Frame.malformed).1
          Frame.malformed).1.closeReason = some CloseReason.ProtocolError) := by
  refine ⟨?_, ?_, ?_⟩
  · intro hgap
    simp only [onFrame]
    rw [if_pos hgap]
    exact ⟨rfl, rfl, rfl⟩
  · constructor
    · simp only [onFrame]
      split <;> rfl
    · simp only [onFrame]
      split <;> rfl
  · intro h0
    have h1 : onFrame st Frame.malformed =
        ({ st with protocolErrors := st.protocolErrors + 1 }, none) := by
      simp only [onFrame]
      rw [if_neg (by omega)]
    rw [h1]
    have h2 : onFrame { st with protocolErrors := st.protocolErrors + 1 } Frame.malformed =
        ({ st with protocolErrors := st.protocolErrors + 1 + 1 }, none) := by
      simp only [onFrame]
      rw [if_neg (by omega)]
    rw [h2]
    have h3 : onFrame { st with protocolErrors := st.protocolErrors + 1 + 1 } Frame.malformed =
        ({ st with protocolErrors := st.protocolErrors + 1 + 1 + 1,
                   closeReason := some CloseReason.ProtocolError }, none) := by
      simp only [onFrame]
      rw [if_pos (by omega)]
    rw [h3]
    exact ⟨rfl, rfl, rfl⟩

theorem claim_C5_witness :
    (({ deviceId := "D1", connectionState := ConnState.Online, protocolErrors := 0, highWater := 5, resyncRequested := false, closeReason := none } : LinkState).highWater + 1 < 9 ∧
      ({ deviceId := "D1", connectionState := ConnState.Online, protocolErrors := 0, highWater := 5, resyncRequested := false, closeReason := none } : LinkState).protocolErrors = 0) ∧
    ((onFrame { deviceId := "D1", connectionState := ConnState.Online, protocolErrors := 0, highWater := 5, resyncRequested := false, closeReason := none } (Frame.data 9 "S1" 100)).1.connectionState = ConnState.Faulted ∧
      (onFrame { deviceId := "D1", connectionState := ConnState.Online, protocolErrors := 0, highWater := 5, resyncRequested := false, closeReason := none } (Frame.data 9 "S1" 100)).1.resyncRequested = true ∧
      (onFrame { deviceId := "D1", connectionState := ConnState.Online, protocolErrors := 0, highWater := 5, resyncRequested := false, closeReason := none } (Frame.data 9 "S1" 100)).2 = none) ∧
    ((onFrame (onFrame (onFrame { deviceId := "D1", connectionState := ConnState.Online, protocolErrors := 0, highWater := 5, resyncRequested := false, closeReason := none } Frame.malformed).1 Frame.malformed).1 Frame.malformed).1.closeReason = some CloseReason.ProtocolError) :=
  ⟨⟨by decide, by decide⟩,
    (claim_C5_gap_and_protocol_errors { deviceId := "D1", connectionState := ConnState.Online, protocolErrors := 0, highWater := 5, resyncRequested := false, closeReason := none } 9 "S1" 100).1 (by decide),
    ((claim_C5_gap_and_protocol_errors { deviceId := "D1", connectionState := ConnState.Online, protocolErrors := 0, highWater := 5, resyncRequested := false, closeReason := none } 9 "S1" 100).2.2 (by decide)).2.2⟩

end Sil
